import Mathlib

/-!
Verification development for the PineTime sleep-tracker companion app.

The definitions below are a shallow embedding of the session-management core in
`src/utils/BluetoothManager.ts` (and the stop path in `src/screens/HomeScreen.tsx`):
byte-buffer decoding (`parseAccelerometerData`, the heart-rate parsing shared by
`hrSub` and `manualHrInterval`), the pacing/staleness state machine of the
`accelInterval` timer and the `accelSub` monitor callback, channel discovery
(`discoverCharacteristics`), the peripheral resolver (`ensurePineTime`), the
reconnection protocol (`attemptReconnection`), and the teardown path
(`stopDataCollection` / `cleanup`).

Wall-clock timestamps are natural numbers (milliseconds, as produced by
`Date.now()`); byte buffers are lists of naturals, each element standing for one
octet of a Node `Buffer`.  Asynchronous I/O results (reads that may fail or
return no value) are `Option` values supplied by an environment record; remote
persistence calls are recorded as output data rather than performed.
-/

namespace PineTime

/-- A raw payload: the bytes of a Node `Buffer`, one `Nat` per octet. -/
abbrev Bytes := List Nat

/-- `buf.readUInt8 i`: the unsigned byte at offset `i` (0 past the end). -/
def readUInt8 (b : Bytes) (i : Nat) : Nat := b.getD i 0

/-- `buf.readInt8 i`: the byte at offset `i` interpreted as a signed 8-bit value. -/
def readInt8 (b : Bytes) (i : Nat) : Int :=
  let v := b.getD i 0
  if v < 128 then (v : Int) else (v : Int) - 256

/-- `buf.readUInt16LE i`: unsigned 16-bit little-endian value at offset `i`. -/
def readUInt16LE (b : Bytes) (i : Nat) : Nat :=
  b.getD i 0 + 256 * b.getD (i + 1) 0

/-- `buf.readInt16LE i`: signed 16-bit little-endian value at offset `i`. -/
def readInt16LE (b : Bytes) (i : Nat) : Int :=
  let v := readUInt16LE b i
  if v < 32768 then (v : Int) else (v : Int) - 65536

/-! ## Sample Decoder — motion (`parseAccelerometerData`) -/

/-- The `parsing_method` tag attached to every decoded motion sample. -/
inductive ParsingMethod
  | primaryMethod      -- 'primary'
  | alternative16bit   -- 'alternative_16bit'
  | method16bit        -- '16bit'
  | unknownFormat      -- 'unknown'
deriving DecidableEq, Repr

/-- A decoded motion sample.  JS objects returned by `parseAccelerometerData`
omit some fields depending on the branch; omitted numeric lanes are modelled as
`0`, an omitted `is_constant` as `false` and an omitted `is_valid` as `true`
(the sample is not marked suspect/invalid in those branches). -/
structure MotionSample where
  x : Int := 0
  y : Int := 0
  z : Int := 0
  w : Int := 0
  parsingMethod : ParsingMethod
  isConstant : Bool := false
  isValid : Bool := true
  rawHex : Bytes := []
deriving DecidableEq, Repr

/-- The stuck-sensor signature test on the four signed 8-bit lanes of a 4-byte
payload (`isConstantData` in the source). -/
def isConstantData4 (x1 y1 z1 w1 : Int) : Bool :=
  (x1 == 70 && y1 == 1 && z1 == 0 && w1 == 0) ||
  (x1 == -50 && y1 == 0 && z1 == 0 && w1 == 0) ||
  (x1 == 0 && y1 == 0 && z1 == 0 && w1 == 0)

/-- `parseAccelerometerData` from the source: 4-byte payloads decode as four
signed 8-bit lanes unless the stuck-sensor signature matches, in which case the
16-bit little-endian interpretation becomes primary and the sample is flagged;
6-byte payloads decode as three signed 16-bit lanes, invalid when all zero; any
other length yields an unknown-format record that is still returned. -/
def parseAccelerometerData (buf : Bytes) : MotionSample :=
  if buf.length = 4 then
    let x1 := readInt8 buf 0
    let y1 := readInt8 buf 1
    let z1 := readInt8 buf 2
    let w1 := readInt8 buf 3
    let x3 := readInt16LE buf 0
    let y3 := readInt16LE buf 2
    if isConstantData4 x1 y1 z1 w1 then
      { x := x3, y := y3, z := 0, w := 0,
        parsingMethod := ParsingMethod.alternative16bit,
        isConstant := true, isValid := true, rawHex := buf }
    else
      { x := x1, y := y1, z := z1, w := w1,
        parsingMethod := ParsingMethod.primaryMethod,
        isConstant := false, isValid := true, rawHex := buf }
  else if buf.length = 6 then
    let x := readInt16LE buf 0
    let y := readInt16LE buf 2
    let z := readInt16LE buf 4
    { x := x, y := y, z := z, w := 0,
      parsingMethod := ParsingMethod.method16bit,
      isConstant := false, isValid := !(x == 0 && y == 0 && z == 0), rawHex := buf }
  else
    { parsingMethod := ParsingMethod.unknownFormat, isValid := false, rawHex := buf }

/-! ## Sample Decoder — heart rate

The byte-level parsing is duplicated verbatim in the source between the `hrSub`
monitor callback and the `manualHrInterval` timer; it is embedded once here. -/

/-- Heart-rate byte parsing shared by `hrSub` and `manualHrInterval`: for a
payload of at least 2 bytes, byte 0 is the flags octet and the rate is the
unsigned byte at offset 1, replaced by the 16-bit little-endian value at
offset 1 when flags bit 0 is set and a third byte is present.  Shorter payloads
yield `none`.  The result pairs the parsed rate with the flags octet. -/
def decodeHr (b : Bytes) : Option (Nat × Nat) :=
  if 2 ≤ b.length then
    let flags := readUInt8 b 0
    let hr8 := readUInt8 b 1
    let hr := if flags.testBit 0 && decide (3 ≤ b.length) then readUInt16LE b 1 else hr8
    some (hr, flags)
  else
    none

/-- The persistence guard `hr && hr > 0 && hr < 250` applied to a parsed rate. -/
def hrShouldSave (hr : Nat) : Bool := decide (0 < hr) && decide (hr < 250)

/-- Output of one heart-rate event (monitor callback or manual-read tick):
the persisted `(bpm, flags)` pair, if any, and whether the event invoked the
reconnection routine (the source never does on this channel). -/
structure HrTickOut where
  saved : Option (Nat × Nat) := none
  reconnect : Bool := false
deriving DecidableEq, Repr

/-- The `hrSub` monitor callback: drop errors and empty values, drop payloads
arriving sooner than `hrEveryMs` after the last gate-passing payload, otherwise
record the arrival time, parse, and persist only rates in the valid range. -/
def hrMonitorStep (hrEveryMs lastHr now : Nat) (payload : Option Bytes) :
    Nat × HrTickOut :=
  match payload with
  | none => (lastHr, {})
  | some b =>
    if b = [] then (lastHr, {})
    else if now - lastHr < hrEveryMs then (lastHr, {})
    else
      match decodeHr b with
      | none => (now, {})
      | some (hr, flags) =>
        if hrShouldSave hr then (now, { saved := some (hr, flags) }) else (now, {})

/-- The `manualHrInterval` timer body: the pacing gate runs before the read;
a failed read or missing value is only logged (no error counter, no
reconnection attempt); an accepted payload is parsed and persisted only when
the rate is in the valid range. -/
def manualHrTick (hrEveryMs lastHr now : Nat) (readResult : Option Bytes) :
    Nat × HrTickOut :=
  if now - lastHr < hrEveryMs then (lastHr, {})
  else
    match readResult with
    | none => (lastHr, {})
    | some b =>
      if b = [] then (lastHr, {})
      else
        match decodeHr b with
        | none => (now, {})
        | some (hr, flags) =>
          if hrShouldSave hr then (now, { saved := some (hr, flags) }) else (now, {})

/-! ## Motion channel — pacing, staleness and error state

State shared between the `accelInterval` timer and the `accelSub` monitor
callback: the `lastAccel` pacing timestamp, the last raw payload seen
(`lastAccelData`, the empty list standing for the initial empty string), the
stale-data counter (`MAX_STALE_DATA = 5`) and the consecutive-error counter
(`MAX_CONSECUTIVE_ERRORS = 3`, used only by the timer). -/

structure AccelState where
  lastAccel : Nat := 0
  lastAccelData : Bytes := []
  staleDataCount : Nat := 0
  consecutiveErrors : Nat := 0
deriving DecidableEq, Repr

/-- Environment for one motion event: whether the control characteristic is
live (`currentAccelCtl`), whether a reactivation write to it succeeds, the
results of the up-to-three alternative reads performed by
`forceAccelerometerRead`, and whether an `attemptReconnection` call succeeds. -/
structure AccelEnv where
  ctlPresent : Bool
  ctlWriteOk : Bool
  forcedReads : List (Option Bytes)
  reconnectSucceeds : Bool
deriving DecidableEq, Repr

/-- Observable output of one motion event: the motion samples handed to
`saveSensorData` (in call order), whether `attemptReconnection` was invoked,
and whether a reactivation write to `motionControl` was attempted. -/
structure AccelTickOut where
  saved : List MotionSample := []
  reconnect : Bool := false
  ctlWriteAttempted : Bool := false
deriving DecidableEq, Repr

/-- `forceAccelerometerRead`: up to three alternative reads; the first one that
returns a non-empty payload different from `lastAccelData` is parsed and
persisted and becomes the new `lastAccelData`; otherwise nothing changes.
(The caller resets the stale counter in either case.) -/
def forceAccelerometerRead (lastData : Bytes) : List (Option Bytes) → Bytes × Option MotionSample
  | [] => (lastData, none)
  | r :: rest =>
    match r with
    | none => forceAccelerometerRead lastData rest
    | some b =>
      if b = [] then forceAccelerometerRead lastData rest
      else if b ≠ lastData then (b, some (parseAccelerometerData b))
      else forceAccelerometerRead lastData rest

/-- The failure branch shared by the no-value check and the catch handler of
the `accelInterval` timer: increment `consecutiveErrors` and, at the threshold
of 3, invoke `attemptReconnection` (whose success callback resets the
counter). -/
def accelReadFailure (env : AccelEnv) (s : AccelState) : AccelState × AccelTickOut :=
  let errs := s.consecutiveErrors + 1
  if 3 ≤ errs then
    ({ s with consecutiveErrors := if env.reconnectSucceeds then 0 else errs },
     { reconnect := true })
  else
    ({ s with consecutiveErrors := errs }, {})

/-- One cycle of the `accelInterval` scheduled-read timer.  `readResult` is the
outcome of `currentAccelChar.read()` (`none` for a thrown error or a missing
value).  After the pacing gate, a successful read resets the error counter and
stamps `lastAccel`; a payload identical to the previous one bumps the stale
counter, and at 5 the timer attempts a reactivation write to `motionControl`,
runs `forceAccelerometerRead` (which may persist an extra payload) and resets
the stale counter — unless the reactivation write throws, which skips both.
The payload itself is then always parsed and persisted. -/
def accelIntervalTick (accelEveryMs : Nat) (env : AccelEnv) (s : AccelState)
    (now : Nat) (readResult : Option Bytes) : AccelState × AccelTickOut :=
  if now - s.lastAccel < accelEveryMs then (s, {})
  else
    match readResult with
    | none => accelReadFailure env s
    | some b =>
      if b = [] then accelReadFailure env s
      else
        let s1 : AccelState := { s with consecutiveErrors := 0, lastAccel := now }
        if b = s1.lastAccelData then
          let cnt := s1.staleDataCount + 1
          if 5 ≤ cnt then
            if env.ctlPresent && !env.ctlWriteOk then
              -- the reactivation write threw: the alternative read and the
              -- counter reset inside the try block are skipped
              ({ s1 with staleDataCount := cnt },
               { saved := [parseAccelerometerData b], ctlWriteAttempted := true })
            else
              let fr := forceAccelerometerRead s1.lastAccelData (env.forcedReads.take 3)
              ({ s1 with staleDataCount := 0, lastAccelData := fr.1 },
               { saved := fr.2.toList ++ [parseAccelerometerData b],
                 ctlWriteAttempted := env.ctlPresent })
          else
            ({ s1 with staleDataCount := cnt }, { saved := [parseAccelerometerData b] })
        else
          ({ s1 with staleDataCount := 0, lastAccelData := b },
           { saved := [parseAccelerometerData b] })

/-- The `accelSub` monitor callback.  Errors and empty values only log; the
pacing gate is the same shared `lastAccel`/`accelEveryMs` check; the stale
branch schedules a reactivation write (no alternative read, no error counter),
resetting the stale counter unless that write throws; the payload is then
always parsed and persisted. -/
def accelMonitorStep (accelEveryMs : Nat) (env : AccelEnv) (s : AccelState)
    (now : Nat) (payload : Option Bytes) : AccelState × AccelTickOut :=
  match payload with
  | none => (s, {})
  | some b =>
    if b = [] then (s, {})
    else if now - s.lastAccel < accelEveryMs then (s, {})
    else
      let s1 : AccelState := { s with lastAccel := now }
      if b = s1.lastAccelData then
        let cnt := s1.staleDataCount + 1
        if 5 ≤ cnt then
          if env.ctlPresent && !env.ctlWriteOk then
            ({ s1 with staleDataCount := cnt },
             { saved := [parseAccelerometerData b], ctlWriteAttempted := true })
          else
            ({ s1 with staleDataCount := 0 },
             { saved := [parseAccelerometerData b], ctlWriteAttempted := env.ctlPresent })
        else
          ({ s1 with staleDataCount := cnt }, { saved := [parseAccelerometerData b] })
      else
        ({ s1 with staleDataCount := 0, lastAccelData := b },
         { saved := [parseAccelerometerData b] })

/-- The two arrival paths of the motion channel. -/
inductive AccelSource
  | scheduledRead
  | changeNotification
deriving DecidableEq, Repr

/-- A motion payload arrival dispatched by source. -/
def accelEvent : AccelSource → Nat → AccelEnv → AccelState → Nat → Option Bytes →
    AccelState × AccelTickOut
  | AccelSource.scheduledRead => accelIntervalTick
  | AccelSource.changeNotification => accelMonitorStep

/-! ## Channel Discovery (`discoverCharacteristics`) and Peripheral Resolver -/

/-- Case-insensitive identifier comparison: JS `a.toLowerCase() === b.toLowerCase()`.
`String.toLower` does not reduce in the kernel, so lowering is done on the
underlying character list. -/
def lowerData (s : String) : List Char := s.data.map Char.toLower

/-- Whether `needle` occurs as a contiguous substring of `hay`
(JS `hay.includes(needle)`), on character lists. -/
def listHasInfix (hay needle : List Char) : Bool :=
  match hay with
  | [] => needle.isEmpty
  | _ :: t => List.isPrefixOf needle hay || listHasInfix t needle

/-- Whether `suffix` ends `s` (JS `s.endsWith(suffix)`), on character lists. -/
def listEndsWith (s suffix : List Char) : Bool :=
  List.isPrefixOf suffix.reverse s.reverse

def MOTION_SERVICE_UUID : String := "00030000-78fc-48fe-8e23-433b3a1942d0"
def ACCEL_CHAR_UUID : String := "00030001-78fc-48fe-8e23-433b3a1942d0"
def HR_SERVICE_UUID : String := "0000180d-0000-1000-8000-00805f9b34fb"
def HR_CHAR_UUID : String := "00002a37-0000-1000-8000-00805f9b34fb"

/-- A characteristic handle: its identifier and write-capability flags. -/
structure CharacteristicM where
  uuid : String
  writableWithResponse : Bool := false
  writableWithoutResponse : Bool := false
deriving DecidableEq, Repr

/-- A service handle: its identifier and enumerated characteristics. -/
structure ServiceM where
  uuid : String
  chars : List CharacteristicM
deriving DecidableEq, Repr

/-- A connected-peripheral handle: stable id, display name, enumerated services. -/
structure DeviceM where
  id : Nat
  name : Option String := none
  services : List ServiceM := []
deriving DecidableEq, Repr

def isMotionService (sv : ServiceM) : Bool :=
  lowerData sv.uuid == lowerData MOTION_SERVICE_UUID

def isHrService (sv : ServiceM) : Bool :=
  lowerData sv.uuid == lowerData HR_SERVICE_UUID

def isAccelChar (c : CharacteristicM) : Bool :=
  lowerData c.uuid == lowerData ACCEL_CHAR_UUID

def isHrChar (c : CharacteristicM) : Bool :=
  lowerData c.uuid == lowerData HR_CHAR_UUID

/-- The heuristic for the motion-control characteristic: any sibling of the
data channel with a write capability whose lowered identifier ends in one of
the known suffixes. -/
def isCtlCandidate (c : CharacteristicM) : Bool :=
  let uuid := lowerData c.uuid
  !(uuid == lowerData ACCEL_CHAR_UUID) &&
  (c.writableWithResponse || c.writableWithoutResponse) &&
  (listEndsWith uuid "3002".data || listEndsWith uuid "3003".data ||
   listEndsWith uuid "3004".data)

/-- The typed discovery failures thrown by `discoverCharacteristics`. -/
inductive DiscoveryError
  | motionServiceNotFound
  | hrServiceNotFound
  | accelCharNotFound
  | hrCharNotFound
deriving DecidableEq, Repr

/-- The three resolved channels; `accelCtl` is optional. -/
structure DiscoveredChars where
  accelChar : CharacteristicM
  accelCtl : Option CharacteristicM
  hrChar : CharacteristicM
deriving DecidableEq, Repr

/-- `discoverCharacteristics`: locate the motion and heart-rate services by
fixed UUID (case-insensitively), then the motion-data, optional motion-control
and heart-rate characteristics; throw a typed error for each mandatory piece
that is absent. -/
def discoverCharacteristics (device : DeviceM) : Except DiscoveryError DiscoveredChars :=
  match device.services.find? isMotionService with
  | none => Except.error DiscoveryError.motionServiceNotFound
  | some motion =>
    match device.services.find? isHrService with
    | none => Except.error DiscoveryError.hrServiceNotFound
    | some hr =>
      match motion.chars.find? isAccelChar with
      | none => Except.error DiscoveryError.accelCharNotFound
      | some accelChar =>
        match hr.chars.find? isHrChar with
        | none => Except.error DiscoveryError.hrCharNotFound
        | some hrChar =>
          Except.ok { accelChar := accelChar,
                      accelCtl := motion.chars.find? isCtlCandidate,
                      hrChar := hrChar }

/-- The accelerometer activation command sweep of `enableAccelerometer`. -/
def enableCommands : List Nat :=
  [0x01, 0x02, 0x03, 0x04, 0x05, 0x10, 0x20, 0x30, 0x40, 0x50, 0x60, 0x70,
   0x80, 0x90, 0xA0, 0xB0, 0xC0, 0xD0, 0xE0, 0xF0,
   0x0102, 0x0203, 0x0304, 0x0405, 0x1020, 0x2030, 0x3040, 0x4050, 0x5060,
   0x6070, 0x7080, 0x8090, 0x90A0, 0xA0B0, 0xB0C0, 0xC0D0, 0xD0E0, 0xE0F0]

/-- Payload layout for one sweep command: two bytes little-endian when the
command value exceeds one byte, else a single byte. -/
def commandPayload (cmd : Nat) : Bytes :=
  if 0xFF < cmd then [cmd % 256, cmd / 256 % 256] else [cmd]

/-- `enableAccelerometer` as the sequence of write payloads it attempts when
the control characteristic exists (a reset write, then each sweep command via
both write modes); with no control characteristic it performs no writes and
returns immediately. -/
def enableAccelerometer (ctl : Option CharacteristicM) : List Bytes :=
  match ctl with
  | none => []
  | some _ => [0x00] :: (enableCommands.map commandPayload).flatMap (fun p => [p, p])

/-- The adapter power states reported by the platform radio. -/
inductive BleAdapterState
  | poweredOn
  | poweredOff
  | unsupported
  | unauthorized
  | resetting
  | unknownState
deriving DecidableEq, Repr

/-- The fixed target-name fragments matched against connected device names. -/
def nameFragments : List (List Char) :=
  ["pinetime".data, "pine time".data, "infinitime".data]

/-- `d.name?.toLowerCase().includes(fragment)` over the fragment list. -/
def matchesPineTimeName (name : Option String) : Bool :=
  match name with
  | none => false
  | some n => nameFragments.any (fun frag => listHasInfix (lowerData n) frag)

/-- `ensurePineTime`, the Peripheral Resolver: `null` unless the adapter is
powered on, else the first already-connected device whose name matches a
target fragment. -/
def ensurePineTime (state : BleAdapterState) (connected : List DeviceM) : Option DeviceM :=
  if state ≠ BleAdapterState.poweredOn then none
  else connected.find? (fun d => matchesPineTimeName d.name)

/-! ## Reconnection protocol (`attemptReconnection`) -/

/-- The session's live peripheral/channel references, updated by the
`onReconnectSuccess` callbacks. -/
structure SessionRefs where
  device : Nat
  accelChar : CharacteristicM
  hrChar : CharacteristicM
  accelCtl : Option CharacteristicM
deriving DecidableEq, Repr

/-- Environment for one reconnection attempt: the adapter state and connected
list seen by the re-run Peripheral Resolver, and whether `device.connect()`
succeeds. -/
structure ReconnectEnv where
  adapterState : BleAdapterState
  connectedDevices : List DeviceM
  connectOk : Bool
deriving DecidableEq, Repr

/-- Result of `attemptReconnection`: the retry counter afterwards, whether the
Peripheral Resolver (`ensurePineTime`) was invoked, whether the attempt
succeeded, and the session references afterwards. -/
structure ReconnectResult where
  retryCount : Nat
  resolverInvoked : Bool
  success : Bool
  refs : SessionRefs
deriving DecidableEq, Repr

/-- `attemptReconnection`: refuse once the retry budget (5) is exhausted;
otherwise bump the counter, re-run the Peripheral Resolver, connect, reset the
counter on connect success, re-run Channel Discovery and activation, and hand
the new device and data channels to `onReconnectSuccess` — which in every call
site updates `currentDevice`, `currentAccelChar` and `currentHrChar` but not
`currentAccelCtl`. -/
def attemptReconnection (retryCount : Nat) (env : ReconnectEnv) (refs : SessionRefs) :
    ReconnectResult :=
  if 5 ≤ retryCount then
    { retryCount := retryCount, resolverInvoked := false, success := false, refs := refs }
  else
    let rc := retryCount + 1
    match ensurePineTime env.adapterState env.connectedDevices with
    | none => { retryCount := rc, resolverInvoked := true, success := false, refs := refs }
    | some d =>
      if !env.connectOk then
        { retryCount := rc, resolverInvoked := true, success := false, refs := refs }
      else
        -- connect succeeded: the counter is reset before rediscovery
        match discoverCharacteristics d with
        | Except.error _ =>
          { retryCount := 0, resolverInvoked := true, success := false, refs := refs }
        | Except.ok chars =>
          { retryCount := 0, resolverInvoked := true, success := true,
            refs := { device := d.id, accelChar := chars.accelChar,
                      hrChar := chars.hrChar, accelCtl := refs.accelCtl } }

/-! ## Session start (`startCollection`) and stop (`stopDataCollection`/`cleanup`) -/

/-- Remote side effects of the start path, in order of occurrence. -/
inductive StartEffect
  | createRecord (userId : Nat)
  | discoveredChannels
deriving DecidableEq, Repr

/-- Errors with which the start path can reject.  `adapterUnavailable` exists
in the taxonomy but `startCollection` performs no adapter check and can never
produce it; `linkUnavailable` stands for the platform error with which a
wireless call rejects when the radio is off. -/
inductive StartError
  | adapterUnavailable
  | linkUnavailable
  | discoveryFailed (e : DiscoveryError)
deriving DecidableEq, Repr

/-- The initialization phase of `startCollection`: it creates the remote sleep
record first and only then performs wireless I/O (discovery, activation).
The adapter power state is never consulted here; when the radio is off the
first wireless call itself rejects (a platform behaviour, modelled by the
`adapterOn` branch), after the record has already been created. -/
def startCollectionRun (adapterOn : Bool) (userId : Nat) (device : DeviceM) :
    List StartEffect × Except StartError DiscoveredChars :=
  let trace := [StartEffect.createRecord userId]
  if !adapterOn then (trace, Except.error StartError.linkUnavailable)
  else
    match discoverCharacteristics device with
    | Except.error e => (trace, Except.error (StartError.discoveryFailed e))
    | Except.ok chars => (trace ++ [StartEffect.discoveredChannels], Except.ok chars)

/-- Teardown side effects: the two subscription removals done directly by
`stopDataCollection`, the six resource releases done by the returned `cleanup`
closure (`accelSub`, `hrSub`, the disconnect listener, and the three timers),
the `ended_at` update of the sleep record (the `closeSession` of the spec) and
the metrics-service POST. -/
inductive StopEffect
  | removeAccelSubscription
  | removeHrSubscription
  | cleanupRemoveAccelSub
  | cleanupRemoveHrSub
  | cleanupRemoveDisconnectListener
  | cleanupClearKeepAlive
  | cleanupClearAccelTimer
  | cleanupClearManualHrTimer
  | closeSession (id : Nat)
  | metricsPost (id : Nat)
deriving DecidableEq, Repr

/-- Resource-teardown effects (everything except the remote close/POST). -/
def isTeardownEffect : StopEffect → Bool
  | StopEffect.closeSession _ => false
  | StopEffect.metricsPost _ => false
  | _ => true

/-- The `HomeScreen` state touched by `stopDataCollection`: whether the two
subscription refs and the cleanup closure are non-null, the `isCollecting`
flag, and the `sleepRecordId` state (never cleared by the stop path). -/
structure HomeState where
  accelSubPresent : Bool
  hrSubPresent : Bool
  cleanupArmed : Bool
  isCollecting : Bool
  sleepRecordId : Option Nat
deriving DecidableEq, Repr

/-- The effect sequence of the `cleanup` closure returned by `startCollection`. -/
def cleanupEffects : List StopEffect :=
  [StopEffect.cleanupRemoveAccelSub, StopEffect.cleanupRemoveHrSub,
   StopEffect.cleanupRemoveDisconnectListener, StopEffect.cleanupClearKeepAlive,
   StopEffect.cleanupClearAccelTimer, StopEffect.cleanupClearManualHrTimer]

/-- `stopDataCollection`: remove each subscription that is present, run the
cleanup closure if armed, null the refs and clear `isCollecting`; then, if a
`sleepRecordId` is set (it is never reset), update the record's `ended_at` and
fire the metrics POST. -/
def stopDataCollection (s : HomeState) : HomeState × List StopEffect :=
  let teardown :=
    (if s.accelSubPresent then [StopEffect.removeAccelSubscription] else []) ++
    (if s.hrSubPresent then [StopEffect.removeHrSubscription] else []) ++
    (if s.cleanupArmed then cleanupEffects else [])
  let s2 : HomeState :=
    { accelSubPresent := false, hrSubPresent := false, cleanupArmed := false,
      isCollecting := false, sleepRecordId := s.sleepRecordId }
  match s.sleepRecordId with
  | some rid => (s2, teardown ++ [StopEffect.closeSession rid, StopEffect.metricsPost rid])
  | none => (s2, teardown)

/-! ### Concrete fixtures used to instantiate the theorems -/

/-- The motion-data characteristic by its fixed UUID. -/
def accelCharFix : CharacteristicM := { uuid := ACCEL_CHAR_UUID }

/-- The heart-rate characteristic by its fixed UUID. -/
def hrCharFix : CharacteristicM := { uuid := HR_CHAR_UUID }

/-- A writable sibling characteristic whose identifier ends in `3002`, i.e. a
motion-control candidate under the discovery heuristic. -/
def ctlCharFix : CharacteristicM :=
  { uuid := "0000aaaa-0000-1000-8000-000000003002", writableWithResponse := true }

/-- A different motion-control candidate (identifier ending in `3003`),
standing for the control channel of an earlier connection. -/
def oldCtlFix : CharacteristicM :=
  { uuid := "0000bbbb-0000-1000-8000-000000003003", writableWithResponse := true }

/-- The motion service carrying only the data characteristic. -/
def motionSvcFix : ServiceM := { uuid := MOTION_SERVICE_UUID, chars := [accelCharFix] }

/-- The heart-rate service carrying its data characteristic. -/
def hrSvcFix : ServiceM := { uuid := HR_SERVICE_UUID, chars := [hrCharFix] }

/-- A heart-rate service with no characteristics. -/
def hrSvcEmptyFix : ServiceM := { uuid := HR_SERVICE_UUID, chars := [] }

/-- A peripheral exposing both services, motion without a control channel. -/
def devNoCtl : DeviceM :=
  { id := 5, name := some "PineTime", services := [motionSvcFix, hrSvcFix] }

/-- A peripheral exposing both services and a motion-control candidate. -/
def devWithCtl : DeviceM :=
  { id := 9, name := some "InfiniTime",
    services := [{ uuid := MOTION_SERVICE_UUID, chars := [accelCharFix, ctlCharFix] },
                 hrSvcFix] }

/-- A peripheral exposing only the motion service. -/
def devMotionOnly : DeviceM := { id := 2, services := [motionSvcFix] }

/-- A peripheral whose heart-rate service lacks the heart-rate characteristic. -/
def devNoHrChar : DeviceM := { id := 3, services := [motionSvcFix, hrSvcEmptyFix] }

end PineTime

deriving instance DecidableEq for Except

namespace PineTime

/-! ## Theorems -/

/-- `(o.toList ++ [x]).getLast?` is always `some x`. -/
lemma getLast?_optionToList_concat (o : Option MotionSample) (x : MotionSample) :
    (o.toList ++ [x]).getLast? = some x := by cases o <;> rfl

/-- C2: For every heart-rate payload of at least 2 bytes, the parsed bpm is the
16-bit little-endian field starting at byte 1 when bit 0 of the flags octet is
set (reading a byte past a 2-byte payload as 0, which coincides with the
source's fallback to the 8-bit read) and the unsigned 8-bit value at byte 1
otherwise; payloads of fewer than 2 bytes are rejected; and neither the
heart-rate monitor callback nor the manual-read timer ever persists a bpm
outside [1, 249]. -/
theorem C2_hr_decode_and_range :
    (∀ b : Bytes, 2 ≤ b.length →
       decodeHr b =
         some ((if (b.getD 0 0).testBit 0 then b.getD 1 0 + 256 * b.getD 2 0
                else b.getD 1 0), b.getD 0 0)) ∧
    (∀ b : Bytes, b.length < 2 → decodeHr b = none) ∧
    (∀ ms last now p hr f, (hrMonitorStep ms last now p).2.saved = some (hr, f) →
       1 ≤ hr ∧ hr ≤ 249) ∧
    (∀ ms last now p hr f, (manualHrTick ms last now p).2.saved = some (hr, f) →
       1 ≤ hr ∧ hr ≤ 249) := by
  refine ⟨?_, ?_, ?_, ?_⟩
  · intro b hb
    rcases b with _ | ⟨b0, b⟩
    · simp at hb
    rcases b with _ | ⟨b1, t⟩
    · simp at hb
    rcases t with _ | ⟨b2, t⟩
    · cases hf : b0.testBit 0 <;>
        simp [decodeHr, readUInt8, readUInt16LE, hf]
    · cases hf : b0.testBit 0 <;>
        simp [decodeHr, readUInt8, readUInt16LE, hf]
  · intro b hb
    unfold decodeHr
    rw [if_neg (by omega)]
  · intro ms last now p hr f h
    unfold hrMonitorStep at h
    rcases p with _ | b
    · simp at h
    · simp only at h
      split at h
      · simp at h
      · split at h
        · simp at h
        · split at h
          · simp at h
          · split at h
            · rename_i hs
              simp only [hrShouldSave, Bool.and_eq_true, decide_eq_true_eq] at hs
              simp at h
              omega
            · simp at h
  · intro ms last now p hr f h
    unfold manualHrTick at h
    split at h
    · simp at h
    · rcases p with _ | b
      · simp at h
      · simp only at h
        split at h
        · simp at h
        · split at h
          · simp at h
          · split at h
            · rename_i hs
              simp only [hrShouldSave, Bool.and_eq_true, decide_eq_true_eq] at hs
              simp at h
              omega
            · simp at h

/-- Witness for C2 at concrete payloads: `[0x00, 0x3C]` decodes to 60 bpm with
flags 0, and a persisted sample from the monitor callback is in range. -/
theorem C2_hr_decode_and_range_witness :
    decodeHr [0, 60] = some (60, 0) ∧ (1 ≤ 60 ∧ 60 ≤ 249) := by
  constructor
  · rw [C2_hr_decode_and_range.1 [0, 60] (by decide)]; decide
  · exact C2_hr_decode_and_range.2.2.1 1000 0 1000 (some [0, 60]) 60 0 (by decide)

/-- Any motion event that persists at least one sample stamps `lastAccel` with
the arrival time (scheduled-read path). -/
lemma intervalTick_saved_lastAccel (ms : Nat) (env : AccelEnv) (s : AccelState)
    (now : Nat) (p : Option Bytes) :
    (accelIntervalTick ms env s now p).2.saved ≠ [] →
    (accelIntervalTick ms env s now p).1.lastAccel = now := by
  dsimp only [accelIntervalTick, accelReadFailure]
  repeat' split
  all_goals intro h
  all_goals first | rfl | (exfalso; exact h rfl)

/-- Any motion event that persists at least one sample stamps `lastAccel` with
the arrival time (notification path). -/
lemma monitorStep_saved_lastAccel (ms : Nat) (env : AccelEnv) (s : AccelState)
    (now : Nat) (p : Option Bytes) :
    (accelMonitorStep ms env s now p).2.saved ≠ [] →
    (accelMonitorStep ms env s now p).1.lastAccel = now := by
  dsimp only [accelMonitorStep]
  repeat' split
  all_goals intro h
  all_goals first | rfl | (exfalso; exact h rfl)

/-- A scheduled-read cycle inside the pacing window is a complete no-op. -/
lemma intervalTick_gated (ms : Nat) (env : AccelEnv) (s : AccelState)
    (now : Nat) (p : Option Bytes) (h : now - s.lastAccel < ms) :
    accelIntervalTick ms env s now p = (s, {}) := by
  unfold accelIntervalTick
  rw [if_pos h]

/-- A notification inside the pacing window persists nothing. -/
lemma monitorStep_gated (ms : Nat) (env : AccelEnv) (s : AccelState)
    (now : Nat) (p : Option Bytes) (h : now - s.lastAccel < ms) :
    (accelMonitorStep ms env s now p).2.saved = [] := by
  rcases p with _ | b
  · rfl
  · dsimp only [accelMonitorStep]
    by_cases hb : b = []
    · rw [if_pos hb]
    · rw [if_neg hb, if_pos h]

/-- C1 (amended): after a motion event that persists a sample at time `now`,
any motion payload arriving on either path (notification or scheduled read)
less than the configured interval later is dropped — nothing is persisted for
it.  (The original claim fails only for the stale-recovery alternative read,
which persists a second payload inside the same scheduled-read cycle without
re-checking the pacing gate; see the counterexample.) -/
theorem C1_pacing_amended :
    ∀ (src1 src2 : AccelSource) (ms : Nat) (env1 env2 : AccelEnv) (s : AccelState)
      (now : Nat) (p1 : Option Bytes) (t2 : Nat) (p2 : Option Bytes),
      (accelEvent src1 ms env1 s now p1).2.saved ≠ [] →
      t2 - now < ms →
      (accelEvent src2 ms env2 (accelEvent src1 ms env1 s now p1).1 t2 p2).2.saved = [] := by
  intro src1 src2 ms env1 env2 s now p1 t2 p2 h1 h2
  have hl : (accelEvent src1 ms env1 s now p1).1.lastAccel = now := by
    cases src1
    · exact intervalTick_saved_lastAccel ms env1 s now p1 h1
    · exact monitorStep_saved_lastAccel ms env1 s now p1 h1
  have hg : t2 - (accelEvent src1 ms env1 s now p1).1.lastAccel < ms := by
    rw [hl]; exact h2
  cases src2
  · show (accelIntervalTick ms env2 _ t2 p2).2.saved = []
    rw [intervalTick_gated _ _ _ _ _ hg]
  · exact monitorStep_gated _ _ _ _ _ hg

/-- Witness for C1 (amended): a notification accepted at t = 1000 ms with a
1000 ms interval forces a scheduled read at t = 1500 ms to persist nothing. -/
theorem C1_pacing_amended_witness :
    (accelEvent AccelSource.scheduledRead 1000
      { ctlPresent := false, ctlWriteOk := true, forcedReads := [], reconnectSucceeds := false }
      (accelEvent AccelSource.changeNotification 1000
        { ctlPresent := false, ctlWriteOk := true, forcedReads := [], reconnectSucceeds := false }
        {} 1000 (some [1, 2, 3, 4])).1
      1500 (some [5, 6, 7, 8])).2.saved = [] :=
  C1_pacing_amended AccelSource.changeNotification AccelSource.scheduledRead 1000
    { ctlPresent := false, ctlWriteOk := true, forcedReads := [], reconnectSucceeds := false }
    { ctlPresent := false, ctlWriteOk := true, forcedReads := [], reconnectSucceeds := false }
    {} 1000 (some [1, 2, 3, 4]) 1500 (some [5, 6, 7, 8]) (by decide) (by decide)

/-- C1 counterexample: with a 1000 ms interval, a scheduled-read cycle whose
payload is the 5th consecutive stale repeat triggers the recovery path, whose
alternative read (completing 200 ms into the cycle) returns fresh bytes; the
cycle persists BOTH the forced-read payload and the stale payload — two
payloads on the motion channel less than the configured interval apart, both
persisted, contradicting "exactly one is accepted and persisted" and the
"only if ≥ interval elapsed" acceptance rule. -/
theorem C1_counterexample :
    ((accelIntervalTick 1000
        { ctlPresent := true, ctlWriteOk := true, forcedReads := [some [1, 2, 3, 4]],
          reconnectSucceeds := false }
        { lastAccel := 0, lastAccelData := [0, 0, 0, 0], staleDataCount := 4,
          consecutiveErrors := 0 }
        1000 (some [0, 0, 0, 0])).2.saved =
      [parseAccelerometerData [1, 2, 3, 4], parseAccelerometerData [0, 0, 0, 0]]) ∧
    1 < ((accelIntervalTick 1000
        { ctlPresent := true, ctlWriteOk := true, forcedReads := [some [1, 2, 3, 4]],
          reconnectSucceeds := false }
        { lastAccel := 0, lastAccelData := [0, 0, 0, 0], staleDataCount := 4,
          consecutiveErrors := 0 }
        1000 (some [0, 0, 0, 0])).2.saved).length := by decide

/-- C3: every 4-byte motion payload matching the stuck-sensor signature is
decoded with `isConstant = true` and the 16-bit little-endian interpretation
(x from bytes 0-1, y from bytes 2-3) as the primary value; and on genuine
bytes the signature is exactly the three constant tuples `[70,1,0,0]`
(signed lanes 70,1,0,0), `[206,0,0,0]` (signed lanes -50,0,0,0) and the
all-zero tuple. -/
theorem C3_stuck_sensor_signature :
    (∀ b : Bytes, b.length = 4 →
       isConstantData4 (readInt8 b 0) (readInt8 b 1) (readInt8 b 2) (readInt8 b 3) = true →
       parseAccelerometerData b =
         { x := readInt16LE b 0, y := readInt16LE b 2, z := 0, w := 0,
           parsingMethod := ParsingMethod.alternative16bit,
           isConstant := true, isValid := true, rawHex := b }) ∧
    (∀ b0 b1 b2 b3 : Nat, b0 < 256 → b1 < 256 → b2 < 256 → b3 < 256 →
       (isConstantData4 (readInt8 [b0, b1, b2, b3] 0) (readInt8 [b0, b1, b2, b3] 1)
          (readInt8 [b0, b1, b2, b3] 2) (readInt8 [b0, b1, b2, b3] 3) = true ↔
        ((b0 = 70 ∧ b1 = 1 ∧ b2 = 0 ∧ b3 = 0) ∨
         (b0 = 206 ∧ b1 = 0 ∧ b2 = 0 ∧ b3 = 0) ∨
         (b0 = 0 ∧ b1 = 0 ∧ b2 = 0 ∧ b3 = 0)))) := by
  constructor
  · intro b hlen hsig
    unfold parseAccelerometerData
    rw [if_pos hlen, if_pos hsig]
  · intro b0 b1 b2 b3 h0 h1 h2 h3
    constructor
    · intro h
      simp only [isConstantData4, readInt8, List.getD_cons_zero, List.getD_cons_succ,
        Bool.or_eq_true, Bool.and_eq_true, beq_iff_eq] at h
      split_ifs at h
      all_goals
        first
        | (simp only [false_and, and_false, false_or, or_false] at h; omega)
        | omega
    · intro h
      rcases h with ⟨rfl, rfl, rfl, rfl⟩ | ⟨rfl, rfl, rfl, rfl⟩ | ⟨rfl, rfl, rfl, rfl⟩ <;> decide

/-- Witness for C3 at the all-zero payload. -/
theorem C3_stuck_sensor_signature_witness :
    parseAccelerometerData [0, 0, 0, 0] =
      { x := 0, y := 0, z := 0, w := 0,
        parsingMethod := ParsingMethod.alternative16bit,
        isConstant := true, isValid := true, rawHex := [0, 0, 0, 0] } := by
  rw [C3_stuck_sensor_signature.1 [0, 0, 0, 0] (by decide) (by decide)]
  decide

/-- C4 (amended): on the MOTION scheduled-read timer, a third consecutive I/O
error (error counter at 2, threshold `MAX_CONSECUTIVE_ERRORS = 3`) invokes the
reconnection routine, earlier errors only accumulate the counter without
touching the pacing state, and any reconnection attempt within the retry
budget re-runs the Peripheral Resolver.  (The original claim also covered the
heart-rate scheduled-read timer; its error handler only logs — see the
counterexample.) -/
theorem C4_motion_error_threshold :
    (∀ ms env (s : AccelState) now, ¬ now - s.lastAccel < ms → s.consecutiveErrors = 2 →
       (accelIntervalTick ms env s now none).2.reconnect = true) ∧
    (∀ ms env (s : AccelState) now, ¬ now - s.lastAccel < ms → s.consecutiveErrors < 2 →
       (accelIntervalTick ms env s now none).2.reconnect = false ∧
       (accelIntervalTick ms env s now none).1.consecutiveErrors = s.consecutiveErrors + 1 ∧
       (accelIntervalTick ms env s now none).1.lastAccel = s.lastAccel) ∧
    (∀ rc env refs, rc < 5 → (attemptReconnection rc env refs).resolverInvoked = true) := by
  refine ⟨?_, ?_, ?_⟩
  · intro ms env s now hg he
    dsimp only [accelIntervalTick, accelReadFailure]
    rw [if_neg hg, if_pos (by omega : 3 ≤ s.consecutiveErrors + 1)]
  · intro ms env s now hg he
    dsimp only [accelIntervalTick, accelReadFailure]
    rw [if_neg hg, if_neg (by omega : ¬ 3 ≤ s.consecutiveErrors + 1)]
    exact ⟨rfl, rfl, rfl⟩
  · intro rc env refs h
    unfold attemptReconnection
    rw [if_neg (by omega)]
    split
    · rfl
    · split
      · rfl
      · split <;> rfl

/-- Witness for C4 (amended): a third consecutive failed read at t = 1000 ms
invokes reconnection, and an attempt with retry count 0 queries the resolver. -/
theorem C4_motion_error_threshold_witness :
    (accelIntervalTick 1000
      { ctlPresent := false, ctlWriteOk := true, forcedReads := [], reconnectSucceeds := false }
      { lastAccel := 0, lastAccelData := [], staleDataCount := 0, consecutiveErrors := 2 }
      1000 none).2.reconnect = true ∧
    (attemptReconnection 0
      { adapterState := BleAdapterState.poweredOff, connectedDevices := [], connectOk := false }
      { device := 0, accelChar := { uuid := "" }, hrChar := { uuid := "" },
        accelCtl := none }).resolverInvoked = true :=
  ⟨C4_motion_error_threshold.1 1000
      { ctlPresent := false, ctlWriteOk := true, forcedReads := [], reconnectSucceeds := false }
      { lastAccel := 0, lastAccelData := [], staleDataCount := 0, consecutiveErrors := 2 }
      1000 (by decide) (by decide),
   C4_motion_error_threshold.2.2 0
      { adapterState := BleAdapterState.poweredOff, connectedDevices := [], connectOk := false }
      { device := 0, accelChar := { uuid := "" }, hrChar := { uuid := "" }, accelCtl := none }
      (by decide)⟩

/-- C4 counterexample: the claim says N consecutive I/O errors on EITHER
scheduled-read timer trigger recovery, but the heart-rate scheduled-read timer
(`manualHrInterval`) only logs read errors: three consecutive failed reads
(t = 1000, 2000, 3000 ms, interval 1000 ms, so each cycle passes the pacing
gate) leave the state unchanged and never invoke the reconnection routine. -/
theorem C4_counterexample :
    manualHrTick 1000 0 1000 none = (0, { saved := none, reconnect := false }) ∧
    manualHrTick 1000 0 2000 none = (0, { saved := none, reconnect := false }) ∧
    manualHrTick 1000 0 3000 none = (0, { saved := none, reconnect := false }) := by
  decide

/-- C5 (amended): when the stale counter reaches `MAX_STALE_DATA = 5` — i.e.
on the arrival of the 6th consecutive identical motion payload, the 5th stale
repeat — both the scheduled-read path and the notification path attempt the
best-effort reactivation write to `motionControl` (present and accepting) and
reset the stale counter; the stale-data event does not invoke the
reconnection routine and leaves the consecutive-error counter at zero, so it
never counts toward the Recovering state. -/
theorem C5_stale_reactivation :
    ∀ ms env (s : AccelState) now b,
      ¬ now - s.lastAccel < ms → b ≠ [] → b = s.lastAccelData →
      4 ≤ s.staleDataCount → env.ctlPresent = true → env.ctlWriteOk = true →
      ((accelIntervalTick ms env s now (some b)).2.ctlWriteAttempted = true ∧
       (accelIntervalTick ms env s now (some b)).2.reconnect = false ∧
       (accelIntervalTick ms env s now (some b)).1.staleDataCount = 0 ∧
       (accelIntervalTick ms env s now (some b)).1.consecutiveErrors = 0) ∧
      ((accelMonitorStep ms env s now (some b)).2.ctlWriteAttempted = true ∧
       (accelMonitorStep ms env s now (some b)).2.reconnect = false ∧
       (accelMonitorStep ms env s now (some b)).1.staleDataCount = 0 ∧
       (accelMonitorStep ms env s now (some b)).1.consecutiveErrors = s.consecutiveErrors) := by
  intro ms env s now b hg hb hstale hcnt hctl hok
  constructor
  · dsimp only [accelIntervalTick]
    rw [if_neg hg, if_neg hb, if_pos hstale, if_pos (by omega : 5 ≤ s.staleDataCount + 1),
      if_neg (by simp [hctl, hok])]
    exact ⟨hctl, rfl, rfl, rfl⟩
  · dsimp only [accelMonitorStep]
    rw [if_neg hb, if_neg hg, if_pos hstale, if_pos (by omega : 5 ≤ s.staleDataCount + 1),
      if_neg (by simp [hctl, hok])]
    exact ⟨hctl, rfl, rfl, rfl⟩

/-- Witness for C5 (amended) at a concrete 6th identical notification. -/
theorem C5_stale_reactivation_witness :
    (accelMonitorStep 1000
      { ctlPresent := true, ctlWriteOk := true, forcedReads := [], reconnectSucceeds := false }
      { lastAccel := 5000, lastAccelData := [0, 0, 0, 0], staleDataCount := 4,
        consecutiveErrors := 0 }
      6000 (some [0, 0, 0, 0])).2.ctlWriteAttempted = true :=
  (C5_stale_reactivation 1000
      { ctlPresent := true, ctlWriteOk := true, forcedReads := [], reconnectSucceeds := false }
      { lastAccel := 5000, lastAccelData := [0, 0, 0, 0], staleDataCount := 4,
        consecutiveErrors := 0 }
      6000 [0, 0, 0, 0] (by decide) (by decide) (by decide) (by decide) (by decide)
      (by decide)).2.1

/-- C5 counterexample: from a fresh session, five identical motion
notifications (the spec's scenario B: the payload arrives once, then four more
times) do NOT yet attempt the reactivation write — the stale counter only
reaches 4 — and when the write does fire on the 6th identical payload it
neither invokes reconnection nor increments any error counter, so the
stale-data event never counts toward the Recovering state, contrary to the
claim. -/
theorem C5_counterexample :
    (let env : AccelEnv :=
       { ctlPresent := true, ctlWriteOk := true, forcedReads := [], reconnectSucceeds := false };
     let e1 := accelMonitorStep 1000 env {} 1000 (some [0, 0, 0, 0]);
     let e2 := accelMonitorStep 1000 env e1.1 2000 (some [0, 0, 0, 0]);
     let e3 := accelMonitorStep 1000 env e2.1 3000 (some [0, 0, 0, 0]);
     let e4 := accelMonitorStep 1000 env e3.1 4000 (some [0, 0, 0, 0]);
     let e5 := accelMonitorStep 1000 env e4.1 5000 (some [0, 0, 0, 0]);
     let e6 := accelMonitorStep 1000 env e5.1 6000 (some [0, 0, 0, 0]);
     (e1.2.ctlWriteAttempted, e2.2.ctlWriteAttempted, e3.2.ctlWriteAttempted,
      e4.2.ctlWriteAttempted, e5.2.ctlWriteAttempted, e5.1.staleDataCount,
      e6.2.ctlWriteAttempted, e6.2.reconnect, e6.1.consecutiveErrors)) =
    (false, false, false, false, false, 4, true, false, 0) := by rfl

/-- C10: on the scheduled-read path every payload that passes the pacing gate
is decoded by `parseAccelerometerData` and forwarded to the persistence layer
as the cycle's final save, regardless of its content — byte-identical stale
repeats, all-zero payloads and unexpected lengths included (the decoded record
carries the validity/suspect flags). -/
theorem C10_scheduled_read_always_persists :
    ∀ ms env (s : AccelState) now b, b ≠ [] → ¬ now - s.lastAccel < ms →
      ((accelIntervalTick ms env s now (some b)).2.saved).getLast? =
        some (parseAccelerometerData b) := by
  intro ms env s now b hb hg
  dsimp only [accelIntervalTick]
  rw [if_neg hg, if_neg hb]
  split
  · split
    · split
      · rfl
      · exact getLast?_optionToList_concat _ _
    · rfl
  · rfl

/-- Witness for C10 at a 2-byte (unexpected-length) payload: it is still
persisted, as an unknown-format record. -/
theorem C10_scheduled_read_always_persists_witness :
    ((accelIntervalTick 1000
        { ctlPresent := false, ctlWriteOk := true, forcedReads := [], reconnectSucceeds := false }
        {} 1000 (some [9, 9])).2.saved).getLast? =
      some (parseAccelerometerData [9, 9]) :=
  C10_scheduled_read_always_persists 1000
    { ctlPresent := false, ctlWriteOk := true, forcedReads := [], reconnectSucceeds := false }
    {} 1000 [9, 9] (by decide) (by decide)

/-- C6 (amended): a reconnection attempt within the retry budget that finds a
peripheral, connects and rediscovers its channels succeeds, resets the retry
counter, and swaps the session's live peripheral handle, motion-data channel
and heart-rate-data channel to the newly discovered ones — while the
motion-control reference is NOT swapped and keeps the old connection's value
(the `onReconnectSuccess` callbacks receive only the device and the two data
channels; see the counterexample). -/
theorem C6_reconnect_swap :
    ∀ rc env refs d chars, rc < 5 →
      ensurePineTime env.adapterState env.connectedDevices = some d →
      env.connectOk = true →
      discoverCharacteristics d = Except.ok chars →
      attemptReconnection rc env refs =
        { retryCount := 0, resolverInvoked := true, success := true,
          refs := { device := d.id, accelChar := chars.accelChar,
                    hrChar := chars.hrChar, accelCtl := refs.accelCtl } } := by
  intro rc env refs d chars hrc hres hconn hdisc
  unfold attemptReconnection
  rw [if_neg (by omega : ¬ 5 ≤ rc), hres]
  dsimp only
  rw [hconn]
  rw [if_neg (by decide : ¬ (!true) = true)]
  rw [hdisc]

/-- Witness for C6 (amended): a concrete successful reconnection to a
peripheral without a control channel. -/
theorem C6_reconnect_swap_witness :
    attemptReconnection 2
      { adapterState := BleAdapterState.poweredOn, connectedDevices := [devNoCtl],
        connectOk := true }
      { device := 1, accelChar := { uuid := "old-a" }, hrChar := { uuid := "old-h" },
        accelCtl := none } =
      { retryCount := 0, resolverInvoked := true, success := true,
        refs := { device := 5, accelChar := accelCharFix, hrChar := hrCharFix,
                  accelCtl := none } } :=
  C6_reconnect_swap 2
    { adapterState := BleAdapterState.poweredOn, connectedDevices := [devNoCtl],
      connectOk := true }
    { device := 1, accelChar := { uuid := "old-a" }, hrChar := { uuid := "old-h" },
      accelCtl := none }
    devNoCtl { accelChar := accelCharFix, accelCtl := none, hrChar := hrCharFix }
    (by omega) (by decide) rfl (by decide)

/-- C6 counterexample: after a successful reconnection to a peripheral whose
rediscovery yields a motion-control candidate (`ctlCharFix`), the session's
live motion-control reference still holds the OLD connection's characteristic
(`oldCtlFix`) — so not every live reference belongs to the new connection,
contrary to the claim. -/
theorem C6_counterexample :
    (attemptReconnection 0
        { adapterState := BleAdapterState.poweredOn, connectedDevices := [devWithCtl],
          connectOk := true }
        { device := 1, accelChar := accelCharFix, hrChar := hrCharFix,
          accelCtl := some oldCtlFix }).success = true ∧
    (discoverCharacteristics devWithCtl).toOption.map (fun c => c.accelCtl) =
      some (some ctlCharFix) ∧
    (attemptReconnection 0
        { adapterState := BleAdapterState.poweredOn, connectedDevices := [devWithCtl],
          connectOk := true }
        { device := 1, accelChar := accelCharFix, hrChar := hrCharFix,
          accelCtl := some oldCtlFix }).refs.accelCtl = some oldCtlFix ∧
    oldCtlFix ≠ ctlCharFix := by
  refine ⟨rfl, rfl, rfl, by decide⟩

/-- C7 (amended): `stopDataCollection` is idempotent on resources — the first
call performs every `cleanup` release (both subscriptions, the disconnect
listener, all three timers) when the cleanup closure is armed, a second call
performs no resource teardown at all and leaves the state fixed — but because
`sleepRecordId` is never cleared, the second call repeats the remote
session-close update and the metrics request instead of being a no-op. -/
theorem C7_stop_idempotent_teardown :
    ∀ s : HomeState,
      (stopDataCollection (stopDataCollection s).1).1 = (stopDataCollection s).1 ∧
      ((stopDataCollection (stopDataCollection s).1).2.filter isTeardownEffect) = [] ∧
      (∀ rid, s.sleepRecordId = some rid →
         (stopDataCollection (stopDataCollection s).1).2 =
           [StopEffect.closeSession rid, StopEffect.metricsPost rid]) ∧
      (s.cleanupArmed = true → ∀ e ∈ cleanupEffects, e ∈ (stopDataCollection s).2) := by
  intro s
  rcases s with ⟨a, h, c, i, rid⟩
  rcases rid with _ | rid
  · refine ⟨rfl, rfl, ?_, ?_⟩
    · intro rid' hr
      exact Option.noConfusion hr
    · intro hc e he
      subst hc
      simp [stopDataCollection, List.mem_append]
      tauto
  · refine ⟨rfl, rfl, ?_, ?_⟩
    · intro rid' hr
      injection hr with hh
      subst hh
      rfl
    · intro hc e he
      subst hc
      simp [stopDataCollection, List.mem_append]
      tauto

/-- Witness for C7 (amended): from a fully armed collecting state, the second
stop call performs no resource teardown. -/
theorem C7_stop_idempotent_teardown_witness :
    ((stopDataCollection (stopDataCollection
        { accelSubPresent := true, hrSubPresent := true, cleanupArmed := true,
          isCollecting := true, sleepRecordId := some 7 }).1).2.filter isTeardownEffect) = [] :=
  (C7_stop_idempotent_teardown
    { accelSubPresent := true, hrSubPresent := true, cleanupArmed := true,
      isCollecting := true, sleepRecordId := some 7 }).2.1

/-- C7 counterexample: calling `stopDataCollection` twice from an armed state
with session id 42 makes the SECOND call update the record's end time and fire
the metrics request again — a duplicate `closeSession` side effect, because
`sleepRecordId` is never reset; the second call is not a no-op as claimed. -/
theorem C7_counterexample :
    (stopDataCollection (stopDataCollection
        { accelSubPresent := true, hrSubPresent := true, cleanupArmed := true,
          isCollecting := true, sleepRecordId := some 42 }).1).2 =
      [StopEffect.closeSession 42, StopEffect.metricsPost 42] := by rfl

/-- C8: Channel Discovery fails with a typed hard error when the motion
service, the heart-rate service, or the heart-rate characteristic is absent,
while absence of the optional motion-control candidate is not an error — the
discovery succeeds with `accelCtl = none` and the activation step then
performs no writes at all. -/
theorem C8_discovery_mandatory_optional :
    (∀ d : DeviceM, d.services.find? isMotionService = none →
       discoverCharacteristics d = Except.error DiscoveryError.motionServiceNotFound) ∧
    (∀ d : DeviceM, (∃ m, d.services.find? isMotionService = some m) →
       d.services.find? isHrService = none →
       discoverCharacteristics d = Except.error DiscoveryError.hrServiceNotFound) ∧
    (∀ (d : DeviceM) m hr a, d.services.find? isMotionService = some m →
       d.services.find? isHrService = some hr →
       m.chars.find? isAccelChar = some a →
       hr.chars.find? isHrChar = none →
       discoverCharacteristics d = Except.error DiscoveryError.hrCharNotFound) ∧
    (∀ (d : DeviceM) m hr a hc, d.services.find? isMotionService = some m →
       d.services.find? isHrService = some hr →
       m.chars.find? isAccelChar = some a →
       hr.chars.find? isHrChar = some hc →
       m.chars.find? isCtlCandidate = none →
       discoverCharacteristics d =
         Except.ok { accelChar := a, accelCtl := none, hrChar := hc }) ∧
    enableAccelerometer none = [] := by
  refine ⟨?_, ?_, ?_, ?_, rfl⟩
  · intro d hm
    unfold discoverCharacteristics
    rw [hm]
  · intro d hm hh
    rcases hm with ⟨m, hm⟩
    unfold discoverCharacteristics
    rw [hm]
    dsimp only
    rw [hh]
  · intro d m hr a hm hh ha hhc
    unfold discoverCharacteristics
    rw [hm]
    dsimp only
    rw [hh]
    dsimp only
    rw [ha]
    dsimp only
    rw [hhc]
  · intro d m hr a hc hm hh ha hhc hctl
    unfold discoverCharacteristics
    rw [hm]
    dsimp only
    rw [hh]
    dsimp only
    rw [ha]
    dsimp only
    rw [hhc, hctl]

/-- Witness for C8 at concrete peripherals: missing motion service, missing
heart-rate service, missing heart-rate characteristic each produce their typed
error; a peripheral with both services but no motion-control candidate is
discovered successfully with `accelCtl = none`. -/
theorem C8_discovery_mandatory_optional_witness :
    discoverCharacteristics { id := 1 } =
      Except.error DiscoveryError.motionServiceNotFound ∧
    discoverCharacteristics devMotionOnly =
      Except.error DiscoveryError.hrServiceNotFound ∧
    discoverCharacteristics devNoHrChar =
      Except.error DiscoveryError.hrCharNotFound ∧
    discoverCharacteristics devNoCtl =
      Except.ok { accelChar := accelCharFix, accelCtl := none, hrChar := hrCharFix } :=
  ⟨C8_discovery_mandatory_optional.1 { id := 1 } rfl,
   C8_discovery_mandatory_optional.2.1 devMotionOnly ⟨motionSvcFix, by decide⟩ (by decide),
   C8_discovery_mandatory_optional.2.2.1 devNoHrChar motionSvcFix hrSvcEmptyFix accelCharFix
     (by decide) (by decide) (by decide) (by decide),
   C8_discovery_mandatory_optional.2.2.2.1 devNoCtl motionSvcFix hrSvcFix accelCharFix hrCharFix
     (by decide) (by decide) (by decide) (by decide) (by decide)⟩

/-- C9 (amended): when the adapter reports a power state other than on, the
Peripheral Resolver (`ensurePineTime`) yields no device, so the UI flow never
reaches `startCollection`; `startCollection` itself, however, performs no
adapter check: called with the radio off it creates the remote session record
FIRST and then rejects with the platform's link error, never with an
adapter-unavailable error, and on every run (radio on or off) the record
creation is part of the trace. -/
theorem C9_adapter_off :
    (∀ devs, ensurePineTime BleAdapterState.poweredOff devs = none) ∧
    (∀ u d, startCollectionRun false u d =
       ([StartEffect.createRecord u], Except.error StartError.linkUnavailable)) ∧
    (∀ adapterOn u d, StartEffect.createRecord u ∈ (startCollectionRun adapterOn u d).1) := by
  refine ⟨?_, ?_, ?_⟩
  · intro devs
    unfold ensurePineTime
    rw [if_pos (by decide)]
  · intro u d
    rfl
  · intro adapterOn u d
    cases adapterOn
    · simp [startCollectionRun]
    · unfold startCollectionRun
      dsimp only
      split
      · simp
      · split <;> simp

/-- C9 counterexample: `start()` invoked with the adapter off (user 7, any
device) produces a trace whose first and only pre-failure effect is the
creation of the remote session record, and rejects with the platform link
error — not with an Adapter-unavailable error, and not before the record is
created, contrary to the claim. -/
theorem C9_counterexample :
    (startCollectionRun false 7 { id := 0 }).1 = [StartEffect.createRecord 7] ∧
    (startCollectionRun false 7 { id := 0 }).2 = Except.error StartError.linkUnavailable ∧
    (startCollectionRun false 7 { id := 0 }).2 ≠ Except.error StartError.adapterUnavailable := by
  refine ⟨rfl, rfl, by decide⟩

end PineTime
